import Mathlib

/-!
Verification of the `Builtin.is` / `Builtin.typeOf` polyfill
(src/polyfill.js of jasnell/proposal-istypes).

The embedding models the JavaScript value universe as far as the polyfill
observes it.  Only three property keys are ever read by the polyfill:
the well-known marker key `Symbol.builtin` (`kSymbol` in the source), the
private kind key `kBuiltin`, and the string key `"constructor"`.  An object
therefore carries, besides its function-ness (which decides its `typeof`
tag), at most these three own properties plus a prototype link; ordinary
property reads walk the prototype chain.  Prototype chains in JavaScript
are acyclic, so the chain is represented structurally.

Marker property values that occur are: `undefined`, a plain string, the
shared default callable `builtin` of the source, and user callables.  The
user callables relevant to the specification ignore their receiver and
return a fixed string or `undefined`; the source coerces a string result
with a template literal, which is the identity on strings.  Any
non-callable, non-undefined marker value makes the source's `fn.call(value)`
expression throw, which the embedding represents by the `strVal` case.
-/

inductive FnBody where
  | defaultBuiltin : FnBody
  | constFn : Option String → FnBody
deriving DecidableEq

inductive MarkerProp where
  | undefVal : MarkerProp
  | strVal : String → MarkerProp
  | fnVal : FnBody → MarkerProp
deriving DecidableEq

mutual

inductive Value where
  | undef : Value
  | nullv : Value
  | bool : Bool → Value
  | num : Int → Value
  | str : String → Value
  | sym : Nat → Value
  | obj : Obj → Value

inductive Obj where
  | mk : Bool → Option MarkerProp → Option String → Option Value → Option Obj → Obj

end

/-- Whether the object is a function (its `typeof` tag is "function"). -/
def Obj.isFn : Obj → Bool
  | .mk f _ _ _ _ => f

/-- The object's own `Symbol.builtin` (marker) property, if present.
`some MarkerProp.undefVal` is a present property whose value is undefined. -/
def Obj.ownMarker : Obj → Option MarkerProp
  | .mk _ m _ _ _ => m

/-- The object's own private-kind (`kBuiltin`) property, if present.  The
source only ever stores strings there. -/
def Obj.slot : Obj → Option String
  | .mk _ _ sl _ _ => sl

/-- The object's own "constructor" property, if present. -/
def Obj.ownCtor : Obj → Option Value
  | .mk _ _ _ c _ => c

/-- The object's prototype ([[Prototype]]), if not null. -/
def Obj.proto : Obj → Option Obj
  | .mk _ _ _ _ p => p

/-- Prototype-chain lookup of the marker (`Symbol.builtin`) property, as an
ordinary property read does. -/
def Obj.lookupMarker : Obj → Option MarkerProp
  | .mk _ (some m) _ _ _ => some m
  | .mk _ none _ _ none => none
  | .mk _ none _ _ (some p) => Obj.lookupMarker p

/-- Prototype-chain lookup of the private-kind (`kBuiltin`) property. -/
def Obj.lookupSlot : Obj → Option String
  | .mk _ _ (some sl) _ _ => some sl
  | .mk _ _ none _ none => none
  | .mk _ _ none _ (some p) => Obj.lookupSlot p

/-- Prototype-chain lookup of the "constructor" property. -/
def Obj.lookupCtor : Obj → Option Value
  | .mk _ _ _ (some c) _ => some c
  | .mk _ _ _ none none => none
  | .mk _ _ _ none (some p) => Obj.lookupCtor p

def Value.isUndef : Value → Bool
  | .undef => true
  | _ => false

def Value.isNull : Value → Bool
  | .nullv => true
  | _ => false

/-- The JavaScript `typeof` operator (note `typeof null` is "object"). -/
def jsTypeof : Value → String
  | .undef => "undefined"
  | .nullv => "object"
  | .bool _ => "boolean"
  | .num _ => "number"
  | .str _ => "string"
  | .sym _ => "symbol"
  | .obj o => if o.isFn then "function" else "object"

def tyErrReadNull : String := "TypeError: Cannot read properties of null"
def tyErrReadUndef : String := "TypeError: Cannot read properties of undefined"
def tyErrCallNonFn : String := "TypeError: fn.call is not a function"
def tyErrToObjUndef : String := "TypeError: Cannot convert undefined to object"
def tyErrToObjNull : String := "TypeError: Cannot convert null to object"
def tyErrNotObject : String := "TypeError: Method invoked on a value that is not an object"

/-- The property read `value[Symbol.builtin]`: throws on null/undefined,
boxes other primitives (whose wrappers carry no marker), and walks the
prototype chain on objects. -/
def readMarkerProp : Value → Except String (Option MarkerProp)
  | .undef => .error tyErrReadUndef
  | .nullv => .error tyErrReadNull
  | .obj o => .ok o.lookupMarker
  | _ => .ok none

/-- The shared default marker callable `builtin` of src/polyfill.js
(lines 34-38), invoked with the given receiver: throws for receivers whose
`typeof` is neither "object" nor "function", otherwise returns the
receiver's private-kind property read `this[kBuiltin]` (which itself throws
when the receiver is null). -/
def builtinCall (receiver : Value) : Except String (Option String) :=
  if jsTypeof receiver = "object" ∨ jsTypeof receiver = "function" then
    match receiver with
    | .obj o => .ok o.lookupSlot
    | _ => .error tyErrReadNull
  else
    .error tyErrNotObject

/-- Invoking a marker callable `fn.call(value)`. -/
def callMarker : FnBody → Value → Except String (Option String)
  | .defaultBuiltin, receiver => builtinCall receiver
  | .constFn r, _ => .ok r

/-- `GetBuiltinValue` of src/polyfill.js (lines 16-24): null yields
undefined; an absent or undefined marker yields undefined; a non-callable
marker value (such as a plain string) makes `fn.call` throw; a callable
marker is invoked with the value as receiver, an undefined result yields
undefined and a string result is returned (template-literal coercion is
the identity on strings). -/
def GetBuiltinValue (value : Value) : Except String (Option String) :=
  if value.isNull then .ok none
  else
    match readMarkerProp value with
    | .error e => .error e
    | .ok none => .ok none
    | .ok (some .undefVal) => .ok none
    | .ok (some (.strVal _)) => .error tyErrCallNonFn
    | .ok (some (.fnVal b)) =>
      match callMarker b value with
      | .error e => .error e
      | .ok none => .ok none
      | .ok (some s) => .ok (some s)

/-- The test `Object.getOwnPropertyDescriptor(value, kSymbol)` of
`GetOwnBuiltinValue`: throws on null/undefined, is false for primitives
(their fresh wrappers have no own marker), and checks the own property on
objects. -/
def hasOwnMarkerProp : Value → Except String Bool
  | .undef => .error tyErrToObjUndef
  | .nullv => .error tyErrToObjNull
  | .obj o => .ok o.ownMarker.isSome
  | _ => .ok false

/-- `GetOwnBuiltinValue` of src/polyfill.js (lines 26-32): null yields
undefined; without the own marker property yields undefined; otherwise
defers to `GetBuiltinValue`. -/
def GetOwnBuiltinValue (value : Value) : Except String (Option String) :=
  if value.isNull then .ok none
  else
    match hasOwnMarkerProp value with
    | .error e => .error e
    | .ok false => .ok none
    | .ok true => GetBuiltinValue value

/-- `_is` of src/polyfill.js (lines 128-140).  The second kind check reads
`typeof value1 !== 'function'` exactly as the source does (not `value2`). -/
def _is (value1 value2 : Value) : Except String Bool :=
  if jsTypeof value1 ≠ "object" ∧ jsTypeof value1 ≠ "function" then .ok false
  else
    match GetOwnBuiltinValue value1 with
    | .error e => .error e
    | .ok none => .ok false
    | .ok (some v1) =>
      if value2.isUndef then .ok false
      else if jsTypeof value2 ≠ "object" ∧ jsTypeof value1 ≠ "function" then .ok false
      else
        match GetOwnBuiltinValue value2 with
        | .error e => .error e
        | .ok v2 => .ok (some v1 == v2)

/-- `_typeof` of src/polyfill.js (lines 142-152): on object-or-function
`typeof` tags it reads `value.constructor` (which throws when `value` is
null, whose `typeof` is "object"), resolves the marker value of that
constructor through `GetBuiltinValue`, returns it when defined, and
otherwise falls back to the `typeof` tag. -/
def _typeof (value : Value) : Except String String :=
  if jsTypeof value = "object" ∨ jsTypeof value = "function" then
    match value with
    | .obj o =>
      match o.lookupCtor with
      | none => .ok (jsTypeof value)
      | some c =>
        if c.isUndef then .ok (jsTypeof value)
        else
          match GetBuiltinValue c with
          | .error e => .error e
          | .ok (some s) => .ok s
          | .ok none => .ok (jsTypeof value)
    | _ => .error tyErrReadNull
  else .ok (jsTypeof value)

/-- The default registration table of src/polyfill.js (lines 41-80): kind
name paired with whether the registered global is a function (`JSON`,
`Math` and `Reflect` are plain namespace objects).  The conditional
`Atomics` / `SharedArrayBuffer` registrations (lines 98-127) are
environment-dependent and outside the unconditional default table. -/
def defaultLabels : List (String × Bool) :=
  [("Array", true), ("ArrayBuffer", true), ("AsyncFunction", true),
   ("Boolean", true), ("DataView", true), ("Date", true), ("Error", true),
   ("EvalError", true), ("Float32Array", true), ("Float64Array", true),
   ("function", true), ("GeneratorFunction", true), ("Int8Array", true),
   ("Int16Array", true), ("Int32Array", true), ("JSON", false),
   ("Map", true), ("Math", false), ("Number", true), ("object", true),
   ("Promise", true), ("Proxy", true), ("RangeError", true),
   ("ReferenceError", true), ("Reflect", false), ("RegExp", true),
   ("Set", true), ("String", true), ("Symbol", true), ("SyntaxError", true),
   ("TypeError", true), ("Uint8Array", true), ("Uint8ClampedArray", true),
   ("Uint16Array", true), ("Uint32Array", true), ("URIError", true),
   ("WeakMap", true), ("WeakSet", true)]

/-- A registered constructor right after the registration loop of
src/polyfill.js (lines 83-96): own private-kind property holding the kind
name and own marker property holding the shared default callable.  The
real prototype chain above it (Function.prototype, Object.prototype)
carries neither property and is elided. -/
def postSetupCtor (e : String × Bool) : Obj :=
  Obj.mk e.2 (some (MarkerProp.fnVal FnBody.defaultBuiltin)) (some e.1) none none

/-- `class Sub extends K {}`: a function object with no own marker, no own
private-kind property, and prototype link to K. -/
def subclassOf (K : Obj) : Obj :=
  Obj.mk true none none none (some K)

/-- A subclass of K declaring its own marker, a callable returning `s`. -/
def subclassWithMarker (K : Obj) (s : String) : Obj :=
  Obj.mk true (some (MarkerProp.fnVal (FnBody.constFn (some s)))) none none (some K)

/-- `new C()`: an instance whose prototype is `C.prototype`, an object
whose own "constructor" property is C; `instFn` is the instance's
function-ness (true for instances of Function and its relatives). -/
def instanceOf (C : Obj) (instFn : Bool) : Obj :=
  Obj.mk instFn none none none (some (Obj.mk false none none (some (Value.obj C)) none))

/-- The assignment `o[Symbol.builtin] = m` (the property is writable). -/
def setOwnMarker (o : Obj) (m : Option MarkerProp) : Obj :=
  match o with
  | .mk f _ sl c p => .mk f m sl c p

/-- Masking: `K[Symbol.builtin] = undefined`. -/
def maskCtor (K : Obj) : Obj :=
  setOwnMarker K (some MarkerProp.undefVal)

/-- Restoring: `K[Symbol.builtin] = builtin`, the original shared default
callable installed by the registration loop. -/
def restoreCtor (K : Obj) : Obj :=
  setOwnMarker K (some (MarkerProp.fnVal FnBody.defaultBuiltin))

/-- A plain (non-function) object tagged with an own marker callable
returning "X". -/
def taggedObjX : Obj :=
  Obj.mk false (some (MarkerProp.fnVal (FnBody.constFn (some "X")))) none none none

/-- A function tagged with an own marker callable returning "X". -/
def taggedFnX : Obj :=
  Obj.mk true (some (MarkerProp.fnVal (FnBody.constFn (some "X")))) none none none

/-- A plain object tagged with an own marker callable returning "Date". -/
def taggedDateObj : Obj :=
  Obj.mk false (some (MarkerProp.fnVal (FnBody.constFn (some "Date")))) none none none

/-- The registered Date constructor. -/
def dateCtor : Obj := postSetupCtor ("Date", true)

/-- An object whose own marker value is the plain string "Date" (the
string variant of the marker protocol). -/
def strTagged : Obj :=
  Obj.mk false (some (MarkerProp.strVal "Date")) none none none

/-- A constructor whose marker callable returns the empty string. -/
def emptyTaggedCtor : Obj :=
  Obj.mk true (some (MarkerProp.fnVal (FnBody.constFn (some "")))) none none none


/-- A detached copy of a registered function: it still carries the default
marker callable but lacks the private-kind property (property copying does
not carry internal-slot-like data). -/
def detachedFn : Obj :=
  Obj.mk true (some (MarkerProp.fnVal FnBody.defaultBuiltin)) none none none

/-- Claim C1: the claim states that `typeOf` is total and never throws,
with `typeOf(null) = "null"` from the fallback table.  On the code,
`typeof null` is "object", so the object branch is taken and reading
`null.constructor` throws; `typeOf(undefined)` does return "undefined". -/
theorem typeof_null_throws :
    _typeof Value.nullv = Except.error tyErrReadNull ∧
    _typeof Value.undef = Except.ok "undefined" :=
  ⟨rfl, rfl⟩

/-- Claim C2 (counterexample): Array is a default-registered constructor,
yet the single-argument call `is(Array)` returns false, not true: `_is`
returns false whenever its second argument is undefined. -/
theorem is_single_arg_cex :
    (("Array", true) ∈ defaultLabels) ∧
    _is (Value.obj (postSetupCtor ("Array", true))) Value.undef = Except.ok false :=
  ⟨by decide, rfl⟩

/-- Claim C2 (amended): `is(value1)` with `value2` omitted never returns
true — it returns false for every default-registered constructor (and on
every non-throwing path). -/
theorem is_single_arg_never_true :
    (∀ v1 : Value, _is v1 Value.undef ≠ Except.ok true) ∧
    (∀ e ∈ defaultLabels, _is (Value.obj (postSetupCtor e)) Value.undef = Except.ok false) := by
  constructor
  · intro v1
    simp only [_is]
    split
    · simp
    · split
      · simp
      · simp
      · simp [Value.isUndef]
  · intro e _
    obtain ⟨name, f⟩ := e
    cases f <;> rfl

/-- Claim C2 (witness): the amended statement at the registered Date
constructor. -/
theorem is_single_arg_never_true_w :
    _is (Value.obj (postSetupCtor ("Date", true))) Value.undef = Except.ok false :=
  is_single_arg_never_true.2 ("Date", true) (by decide)

/-- Claim C3: both the registered Date constructor and a plain object
tagged with an own marker resolving to "Date" have defined, equal marker
strings, yet `is(taggedObject, Date)` returns false while the swapped call
returns true — the source's second kind check reads `typeof value1` where
its own README algorithm prescribes `Type(value2)`. -/
theorem is_object_function_typo :
    GetOwnBuiltinValue (Value.obj taggedDateObj) = Except.ok (some "Date") ∧
    GetOwnBuiltinValue (Value.obj dateCtor) = Except.ok (some "Date") ∧
    _is (Value.obj taggedDateObj) (Value.obj dateCtor) = Except.ok false ∧
    _is (Value.obj dateCtor) (Value.obj taggedDateObj) = Except.ok true :=
  ⟨rfl, rfl, rfl, rfl⟩

/-- Claim C4: when the supplied second argument is not of
object-or-function kind, `is` never returns true; and whenever the own
marker resolution of the first argument does not throw (the only failure
the spec's error policy allows to propagate), `is` returns exactly false. -/
theorem is_primitive_value2 (value1 value2 : Value)
    (h1 : jsTypeof value2 ≠ "object") (h2 : jsTypeof value2 ≠ "function") :
    _is value1 value2 ≠ Except.ok true ∧
    (∀ r, GetOwnBuiltinValue value1 = Except.ok r → _is value1 value2 = Except.ok false) := by
  simp only [_is]
  split
  · exact ⟨by simp, fun r _ => rfl⟩
  · rcases hg : GetOwnBuiltinValue value1 with e | r
    · refine ⟨by simp, fun r hr => ?_⟩
      cases hr
    · rcases r with _ | s
      · exact ⟨by simp, fun r _ => rfl⟩
      · rcases value2 with _ | _ | b | n | str2 | k | o2
        · exact ⟨by simp [Value.isUndef], fun r _ => by simp [Value.isUndef]⟩
        · exact absurd rfl h1
        · refine ⟨?_, fun r _ => ?_⟩ <;>
          · simp only [Value.isUndef, jsTypeof]
            split
            · simp
            · split
              · simp
              · simp [GetOwnBuiltinValue, hasOwnMarkerProp, Value.isNull]
        · refine ⟨?_, fun r _ => ?_⟩ <;>
          · simp only [Value.isUndef, jsTypeof]
            split
            · simp
            · split
              · simp
              · simp [GetOwnBuiltinValue, hasOwnMarkerProp, Value.isNull]
        · refine ⟨?_, fun r _ => ?_⟩ <;>
          · simp only [Value.isUndef, jsTypeof]
            split
            · simp
            · split
              · simp
              · simp [GetOwnBuiltinValue, hasOwnMarkerProp, Value.isNull]
        · refine ⟨?_, fun r _ => ?_⟩ <;>
          · simp only [Value.isUndef, jsTypeof]
            split
            · simp
            · split
              · simp
              · simp [GetOwnBuiltinValue, hasOwnMarkerProp, Value.isNull]
        · rcases o2 with ⟨f2, m2, sl2, c2, p2⟩
          cases f2
          · exact absurd rfl h1
          · exact absurd rfl h2

/-- Claim C4 (witness): `is(Date, 5)` is false. -/
theorem is_primitive_value2_w :
    _is (Value.obj dateCtor) (Value.num 5) = Except.ok false :=
  (is_primitive_value2 (Value.obj dateCtor) (Value.num 5) (by decide) (by decide)).2
    (some "Date") rfl

/-- Claim C5 (counterexample): an object whose marker property holds the
plain string "Date" is not classified — marker resolution, `is` and
`typeOf` all throw (the source unconditionally invokes `fn.call`, and a
string has no `call` method), instead of using the string directly. -/
theorem string_marker_cex :
    GetBuiltinValue (Value.obj strTagged) = Except.error tyErrCallNonFn ∧
    _is (Value.obj strTagged) (Value.obj strTagged) = Except.error tyErrCallNonFn ∧
    _typeof (Value.obj (instanceOf strTagged false)) = Except.error tyErrCallNonFn :=
  ⟨rfl, rfl, rfl⟩

/-- Claim C5 (amended): the string variant of the marker protocol is not
supported — whenever the marker property resolves to a plain string value,
marker resolution throws a TypeError rather than returning that string. -/
theorem string_marker_resolution_throws (o : Obj) (s : String)
    (h : o.lookupMarker = some (MarkerProp.strVal s)) :
    GetBuiltinValue (Value.obj o) = Except.error tyErrCallNonFn := by
  simp [GetBuiltinValue, readMarkerProp, Value.isNull, h]

/-- Claim C5 (witness): the amended statement at a concrete string-tagged
object. -/
theorem string_marker_resolution_throws_w :
    GetBuiltinValue (Value.obj (Obj.mk true (some (MarkerProp.strVal "X")) none none none)) =
      Except.error tyErrCallNonFn :=
  string_marker_resolution_throws (Obj.mk true (some (MarkerProp.strVal "X")) none none none)
    "X" rfl

/-- Claim C6 (counterexample): when the constructor's marker callable
returns the empty string, `typeOf` returns "" rather than falling back to
the primitive classification "object" of the instance. -/
theorem empty_marker_cex :
    _typeof (Value.obj (instanceOf emptyTaggedCtor false)) = Except.ok "" ∧
    jsTypeof (Value.obj (instanceOf emptyTaggedCtor false)) = "object" ∧
    _typeof (Value.obj (instanceOf emptyTaggedCtor false)) ≠
      Except.ok (jsTypeof (Value.obj (instanceOf emptyTaggedCtor false))) := by
  refine ⟨rfl, rfl, fun hcontra => ?_⟩
  have h2 : jsTypeof (Value.obj (instanceOf emptyTaggedCtor false)) = "object" := rfl
  have h1 : _typeof (Value.obj (instanceOf emptyTaggedCtor false)) = Except.ok "" := rfl
  rw [h1, h2] at hcontra
  simp at hcontra

/-- Claim C6 (amended): `typeOf` returns the marker value resolved from
the constructor whenever it is a defined string — including the empty
string — and falls back to the primitive classification exactly when
resolution yields undefined. -/
theorem typeof_returns_defined_marker (o : Obj) (c : Value) :
    (∀ s, o.lookupCtor = some c → GetBuiltinValue c = Except.ok (some s) →
      _typeof (Value.obj o) = Except.ok s) ∧
    (o.lookupCtor = some c → GetBuiltinValue c = Except.ok none →
      _typeof (Value.obj o) = Except.ok (jsTypeof (Value.obj o))) := by
  have hko : jsTypeof (Value.obj o) = "object" ∨ jsTypeof (Value.obj o) = "function" := by
    cases ho : o.isFn <;> simp [jsTypeof, ho]
  have hcu : ∀ r : Option String, GetBuiltinValue c = Except.ok r → c.isUndef = false := by
    intro r hr
    cases c <;> first
      | rfl
      | (simp [GetBuiltinValue, readMarkerProp, Value.isNull] at hr)
  constructor
  · intro s hc hg
    simp only [_typeof, if_pos hko, hc, hcu (some s) hg, hg]
    rfl
  · intro hc hg
    simp only [_typeof, if_pos hko, hc, hcu none hg, hg]
    rfl

/-- Claim C6 (witness): the amended statement applied to the
empty-string-marked constructor's instance. -/
theorem typeof_returns_defined_marker_w :
    _typeof (Value.obj (instanceOf emptyTaggedCtor false)) = Except.ok "" :=
  (typeof_returns_defined_marker (instanceOf emptyTaggedCtor false)
    (Value.obj emptyTaggedCtor)).1 "" rfl rfl

/-- Claim C7: the default marker callable, invoked with any
object-or-function receiver whose private-kind property resolution finds
nothing, returns undefined (it does not reach its throwing branch), and
marker resolution through it yields undefined. -/
theorem default_marker_no_slot (o : Obj) (h : o.lookupSlot = none) :
    builtinCall (Value.obj o) = Except.ok none ∧
    (o.lookupMarker = some (MarkerProp.fnVal FnBody.defaultBuiltin) →
      GetBuiltinValue (Value.obj o) = Except.ok none) := by
  have hb : builtinCall (Value.obj o) = Except.ok none := by
    have hko : jsTypeof (Value.obj o) = "object" ∨ jsTypeof (Value.obj o) = "function" := by
      cases ho : o.isFn <;> simp [jsTypeof, ho]
    simp [builtinCall, if_pos hko, h]
  refine ⟨hb, fun hm => ?_⟩
  simp [GetBuiltinValue, readMarkerProp, Value.isNull, hm, callMarker, hb]

/-- Claim C7 (witness): a detached copy of a registered function (marker
callable present, private-kind property absent) resolves to undefined. -/
theorem default_marker_no_slot_w :
    GetBuiltinValue (Value.obj detachedFn) = Except.ok none :=
  (default_marker_no_slot detachedFn rfl).2 rfl

/-- Claim C8: for every default-registered kind K, an instance of a
subclass of K that declares no own marker classifies as K's registered
kind name through the prototype-chain lookups; when the subclass declares
its own marker resolving to a string, that string wins. -/
theorem typeof_subclass_inherits (e : String × Bool) (he : e ∈ defaultLabels)
    (instFn : Bool) :
    _typeof (Value.obj (instanceOf (subclassOf (postSetupCtor e)) instFn)) =
      Except.ok e.1 ∧
    (∀ s, _typeof (Value.obj (instanceOf (subclassWithMarker (postSetupCtor e) s) instFn)) =
      Except.ok s) := by
  obtain ⟨name, f⟩ := e
  cases instFn <;> exact ⟨rfl, fun s => rfl⟩

/-- Claim C8 (witness): a subclass of the registered Date constructor
without its own marker classifies as "Date"; with an own marker returning
"Mine" it classifies as "Mine". -/
theorem typeof_subclass_inherits_w :
    _typeof (Value.obj (instanceOf (subclassOf (postSetupCtor ("Date", true))) false)) =
      Except.ok "Date" ∧
    _typeof (Value.obj (instanceOf (subclassWithMarker (postSetupCtor ("Date", true)) "Mine")
      false)) = Except.ok "Mine" :=
  ⟨(typeof_subclass_inherits ("Date", true) (by decide) false).1,
   (typeof_subclass_inherits ("Date", true) (by decide) false).2 "Mine"⟩

/-- Claim C9 (counterexample): Function is a default-registered
constructor, but after masking, `typeOf` of a Function instance (itself a
function) returns "function", not "object" as the claim states. -/
theorem mask_function_instance_cex :
    (("function", true) ∈ defaultLabels) ∧
    _typeof (Value.obj (instanceOf (maskCtor (postSetupCtor ("function", true))) true)) =
      Except.ok "function" ∧
    _typeof (Value.obj (instanceOf (maskCtor (postSetupCtor ("function", true))) true)) ≠
      Except.ok "object" := by
  refine ⟨by decide, rfl, fun hcontra => ?_⟩
  have h1 : _typeof (Value.obj (instanceOf (maskCtor (postSetupCtor ("function", true))) true)) =
      Except.ok "function" := rfl
  rw [h1] at hcontra
  simp at hcontra

/-- Claim C9 (amended): masking is fully reversible for every
default-registered constructor K: after `K[Symbol.builtin] = undefined`,
`is(K)` is false and `typeOf(new K())` returns the instance's primitive
`typeof` tag ("object" for ordinary instances, "function" for instances of
Function, AsyncFunction and GeneratorFunction); the private kind property
is unchanged by the mask, re-assigning the default marker value restores
the constructor object exactly, `typeOf(new K())` again returns K's
registered name, and `is(K)` gives its original result. -/
theorem masking_reversible (e : String × Bool) (he : e ∈ defaultLabels)
    (instFn : Bool) :
    _is (Value.obj (maskCtor (postSetupCtor e))) Value.undef = Except.ok false ∧
    _typeof (Value.obj (instanceOf (maskCtor (postSetupCtor e)) instFn)) =
      Except.ok (jsTypeof (Value.obj (instanceOf (maskCtor (postSetupCtor e)) instFn))) ∧
    (maskCtor (postSetupCtor e)).slot = (postSetupCtor e).slot ∧
    restoreCtor (maskCtor (postSetupCtor e)) = postSetupCtor e ∧
    _typeof (Value.obj (instanceOf (restoreCtor (maskCtor (postSetupCtor e))) instFn)) =
      Except.ok e.1 ∧
    _is (Value.obj (restoreCtor (maskCtor (postSetupCtor e)))) Value.undef =
      _is (Value.obj (postSetupCtor e)) Value.undef := by
  obtain ⟨name, f⟩ := e
  cases f <;> cases instFn <;> exact ⟨rfl, rfl, rfl, rfl, rfl, rfl⟩

/-- Claim C9 (witness): the amended statement at the registered Date
constructor with an ordinary instance. -/
theorem masking_reversible_w :
    _typeof (Value.obj (instanceOf (maskCtor (postSetupCtor ("Date", true))) false)) =
      Except.ok "object" ∧
    _typeof (Value.obj (instanceOf (restoreCtor (maskCtor (postSetupCtor ("Date", true))))
      false)) = Except.ok "Date" :=
  ⟨(masking_reversible ("Date", true) (by decide) false).2.1,
   (masking_reversible ("Date", true) (by decide) false).2.2.2.2.1⟩

/-- Claim C10: `is` is not symmetric in its arguments: whenever the first
argument has `typeof` "object" and the second has `typeof` "function",
`is` never returns true — even when both carry identical own marker
strings — while the swapped call can return true for the same pair. -/
theorem is_asymmetric_object_function :
    (∀ v1 v2 : Value, jsTypeof v1 = "object" → jsTypeof v2 = "function" →
      _is v1 v2 ≠ Except.ok true) ∧
    Obj.ownMarker taggedObjX = Obj.ownMarker taggedFnX ∧
    _is (Value.obj taggedFnX) (Value.obj taggedObjX) = Except.ok true ∧
    _is (Value.obj taggedObjX) (Value.obj taggedFnX) = Except.ok false := by
  refine ⟨fun v1 v2 h1 h2 => ?_, rfl, rfl, rfl⟩
  rcases v2 with _ | _ | b | n | s2 | k | o2
  iterate 6 simp [jsTypeof] at h2
  rcases o2 with ⟨f2, m2, sl2, c2, p2⟩
  cases f2
  · simp [jsTypeof, Obj.isFn] at h2
  · rcases v1 with _ | _ | b | n | s1 | k | o1
    · simp [jsTypeof] at h1
    · intro hcontra
      cases hcontra
    · simp [jsTypeof] at h1
    · simp [jsTypeof] at h1
    · simp [jsTypeof] at h1
    · simp [jsTypeof] at h1
    · rcases o1 with ⟨f1, m1, sl1, c1, p1⟩
      cases f1
      · simp only [_is]
        split
        · simp
        · split
          · simp
          · simp
          · simp [Value.isUndef, jsTypeof, Obj.isFn]
      · simp [jsTypeof, Obj.isFn] at h1

/-- Claim C10 (witness): the universal part applied at null (whose
`typeof` is "object") and a marker-tagged function. -/
theorem is_asymmetric_object_function_w :
    _is Value.nullv (Value.obj taggedFnX) ≠ Except.ok true :=
  is_asymmetric_object_function.1 Value.nullv (Value.obj taggedFnX) rfl rfl
